import Mathlib

/-!
Shallow embedding of the route-generation and UI state logic of
`src/src/App.js` (a React application built on react-leaflet and the
OpenRouteService routing provider).  The repository file contains two
successive versions of the `App` component:

* the first version (lines 1-239) generates four alternate routes by a
  sequential `for` loop over four directional offsets, with a per-request
  `try`/`catch` that logs a failure and continues, pushing each successful
  geometry onto `results` and finally calling `setRoutes(results)` and
  `setSelectedRoute(0)`;
* the second version (lines 239-491) generates four round-trip loops via
  `Promise.all` over four `generateRoundTripRoute` calls, clearing
  `routes` and setting `loading` before the batch, storing all four loops
  and resetting the selection on success, and leaving the cleared route
  list in place on any failure (the `catch` only alerts; `finally` clears
  `loading`).

Coordinates and distances are modelled as rationals; provider responses
are modelled as `Except Unit Route` outcomes, one per issued request.
-/

/-- A geographic coordinate (the source keeps `[latitude, longitude]`
arrays; we name the fields). -/
structure Coord where
  lat : ℚ
  lng : ℚ
deriving DecidableEq, Repr

/-- A route geometry: the ordered coordinate sequence the provider
returns (the source maps GeoJSON coordinates into `[lat, lng]` pairs, or
stores the GeoJSON feature whole; only its identity matters here). -/
def Route : Type := List Coord

instance : DecidableEq Route := by unfold Route; infer_instance

/-- The component-local state of `App`: `position`, `routes`,
`selectedRoute`, `distance` (miles) and `loading`, as declared by the
five `useState` hooks. -/
structure AppState where
  position : Option Coord
  routes : List Route
  selectedRoute : ℕ
  distance : ℚ
  loading : Bool
deriving DecidableEq

/-- The initial hook values: `position = null`, `routes = []`,
`selectedRoute = 0`, `distance = 1`, `loading = true`. -/
def initialState : AppState :=
  { position := none, routes := [], selectedRoute := 0, distance := 1, loading := true }

/-- A candidate at index `idx` renders as selected exactly when
`idx === selectedRoute` (the border/colour test in both versions). -/
def isSelected (s : AppState) (idx : ℕ) : Bool :=
  idx == s.selectedRoute

/-- `setSelectedRoute(idx)`, the `onClick` handler of a route-choice
button: it only stores the new index; nothing else is touched and no
geometry is recomputed. -/
def selectCandidate (s : AppState) (idx : ℕ) : AppState :=
  { s with selectedRoute := idx }

/-- `distance * 1609.34`, the miles-to-metres conversion of the
`Promise.all` version (`const distanceMeters = distance * 1609.34`). -/
def milesToMeters (miles : ℚ) : ℚ :=
  miles * (160934 / 100)

/-- The request body built by `generateRoundTripRoute(lat, lng,
distanceMeters, seedOffset)`: one origin coordinate (sent as
`[lng, lat]`), a `round_trip` object with `length = distanceMeters`,
`points = 4 + seedOffset` and `seed = Date.now() + seedOffset`.  The
value of `Date.now()` at the moment the body is built is passed in as
`now`. -/
structure RoundTripRequest where
  originLng : ℚ
  originLat : ℚ
  lengthMeters : ℚ
  points : ℕ
  seed : ℕ
deriving DecidableEq, Repr

def generateRoundTripRequest (lat lng : ℚ) (distanceMeters : ℚ)
    (seedOffset : ℕ) (now : ℕ) : RoundTripRequest :=
  { originLng := lng
    originLat := lat
    lengthMeters := distanceMeters
    points := 4 + seedOffset
    seed := now + seedOffset }

/-- `Promise.all` over per-request outcomes: it resolves with the list of
all results when every request succeeded and rejects as soon as any
request fails. -/
def promiseAll : List (Except Unit Route) → Except Unit (List Route)
  | [] => .ok []
  | .error e :: _ => .error e
  | .ok r :: rest =>
    match promiseAll rest with
    | .ok rs => .ok (r :: rs)
    | .error e => .error e

/-- The `Promise.all` version of `generateRoutes` (second `App`,
source lines 323-346).  Guard: `if (!position) return;`.  Then
`setLoading(true); setRoutes([])`; four `generateRoundTripRoute` calls
with seed offsets 1..4 are batched with `Promise.all`; on success
`setRoutes(loops); setSelectedRoute(0)`; on failure only an alert fires;
`finally { setLoading(false) }`.  `now1..now4` are the `Date.now()`
values observed by the four calls (issued in order), `o1..o4` the
provider outcomes of the four requests.  Returns the new state together
with the list of requests issued. -/
def generateRoutesConc (s : AppState) (now1 now2 now3 now4 : ℕ)
    (o1 o2 o3 o4 : Except Unit Route) : AppState × List RoundTripRequest :=
  match s.position with
  | none => (s, [])
  | some pos =>
    let cleared : AppState := { s with loading := true, routes := [] }
    let dm := milesToMeters s.distance
    let reqs := [generateRoundTripRequest pos.lat pos.lng dm 1 now1,
                 generateRoundTripRequest pos.lat pos.lng dm 2 now2,
                 generateRoundTripRequest pos.lat pos.lng dm 3 now3,
                 generateRoundTripRequest pos.lat pos.lng dm 4 now4]
    let final : AppState :=
      match promiseAll [o1, o2, o3, o4] with
      | .ok loops => { cleared with routes := loops, selectedRoute := 0, loading := false }
      | .error _ => { cleared with loading := false }
    (final, reqs)

/-- The request body built inside the sequential version's loop: the
axios POST carries `coordinates = [[lng, lat], [lng + off.1, lat + off.2],
[lng, lat]]` (an out-and-back through one offset waypoint). -/
structure WaypointRequest where
  coords : List (ℚ × ℚ)
deriving DecidableEq, Repr

/-- `const offsets = [[o,o],[-o,o],[o,-o],[-o,-o]]` with
`o = distance / 100`. -/
def seqOffsets (offset : ℚ) : List (ℚ × ℚ) :=
  [(offset, offset), (-offset, offset), (offset, -offset), (-offset, -offset)]

def mkWaypointRequest (lat lng : ℚ) (off : ℚ × ℚ) : WaypointRequest :=
  { coords := [(lng, lat), (lng + off.1, lat + off.2), (lng, lat)] }

/-- The loop body's aggregation in the sequential version: each
iteration `try`s its request, pushes the decoded geometry onto `results`
on success, and on failure only logs and continues. -/
def okResults : List (Except Unit Route) → List Route
  | [] => []
  | .ok r :: rest => r :: okResults rest
  | .error _ :: rest => okResults rest

/-- The sequential version of `generateRoutes` (first `App`, source
lines 49-98).  Guard: `if (!position) return;`.  Four requests are
awaited one at a time inside a per-iteration `try`/`catch`; failures are
skipped; finally `setRoutes(results); setSelectedRoute(0)` (`loading` is
never touched, and there is no distance check).  Returns the new state
together with the requests issued. -/
def generateRoutesSeq (s : AppState) (o1 o2 o3 o4 : Except Unit Route) :
    AppState × List WaypointRequest :=
  match s.position with
  | none => (s, [])
  | some pos =>
    let offset := s.distance / 100
    let reqs := (seqOffsets offset).map (mkWaypointRequest pos.lat pos.lng)
    ({ s with routes := okResults [o1, o2, o3, o4], selectedRoute := 0 }, reqs)

/-- The fallback coordinate used when geolocation fails: NYC
`[40.7128, -74.006]`. -/
def nycCoord : Coord := ⟨407128 / 10000, -(74006 / 1000)⟩

/-- Modelled from the spec: the repository source under `src/` contains no
tracking-session or milestone-detector code (only the route-generation UI
exists there); this follows §4.2/§4.3 — "while `cumulativeDistanceMiles >=
nextMilestoneMiles`, emit one notification per crossed threshold ... and
advance `nextMilestoneMiles` by 0.25 each time".  Returns the list of
crossed thresholds (the notifications, in order) and the new
`nextMilestoneMiles`. -/
def checkMilestones (cum next : ℚ) : List ℚ × ℚ :=
  if h : next ≤ cum then
    let rest := checkMilestones cum (next + 1/4)
    (next :: rest.1, rest.2)
  else
    ([], next)
termination_by (⌊(cum - next) * 4⌋ + 1).toNat
decreasing_by
  have h4 : (cum - (next + 1/4)) * 4 = (cum - next) * 4 - 1 := by ring
  have hnn : (0 : ℚ) ≤ (cum - next) * 4 := by linarith
  have h0 : (0 : ℤ) ≤ ⌊(cum - next) * 4⌋ := Int.floor_nonneg.mpr hnn
  simp only [h4, Int.floor_sub_one]
  omega

/-- One asynchronous event of the `Promise.all` version of
`generateRoutes`: a batch starting (`setLoading(true); setRoutes([])`),
a batch's `Promise.all` resolving (`setRoutes(loops); setSelectedRoute(0);
setLoading(false)`), or rejecting (alert only, then `setLoading(false)`).
The `batch` label records which `generateRoutes` invocation the event
belongs to; the source keeps no such counter, so the handlers below
cannot and do not consult it. -/
inductive GenEvent where
  | start (batch : ℕ)
  | completeOk (batch : ℕ) (loops : List Route)
  | completeErr (batch : ℕ)
deriving DecidableEq

/-- The state update an event performs, exactly as the corresponding
continuation in the source performs it (no staleness guard exists). -/
def stepEvent (s : AppState) : GenEvent → AppState
  | .start _ => { s with loading := true, routes := [] }
  | .completeOk _ loops => { s with routes := loops, selectedRoute := 0, loading := false }
  | .completeErr _ => { s with loading := false }

/-- Folding an interleaving of generation events over the state. -/
def runEvents (s : AppState) (es : List GenEvent) : AppState :=
  es.foldl stepEvent s

/-! ### Helper lemmas and concrete data -/

lemma checkMilestones_step {cum next : ℚ} (h : next ≤ cum) :
    checkMilestones cum next =
      (next :: (checkMilestones cum (next + 1/4)).1, (checkMilestones cum (next + 1/4)).2) := by
  rw [checkMilestones]
  simp [h]

lemma checkMilestones_stop {cum next : ℚ} (h : ¬ next ≤ cum) :
    checkMilestones cum next = ([], next) := by
  rw [checkMilestones]
  simp [h]

/-- `Promise.all` rejects whenever any of its promises rejects. -/
lemma promiseAll_error_of_mem {l : List (Except Unit Route)}
    (h : Except.error () ∈ l) : promiseAll l = .error () := by
  induction l with
  | nil => simp at h
  | cons a l ih =>
    rcases List.mem_cons.mp h with h1 | h2
    · rw [← h1]
      rfl
    · cases a with
      | error e => cases e; rfl
      | ok r => rw [promiseAll, ih h2]

/-- A sample state after a successful generation: position acquired,
a prior candidate set present, candidate 1 selected. -/
def sampleState : AppState :=
  { position := some nycCoord, routes := [[⟨9, 9⟩]], selectedRoute := 1,
    distance := 2, loading := false }

/-- `sampleState` with a 0.5-mile target distance. -/
def halfMileState : AppState := { sampleState with distance := 1/2 }

def routeA : Route := [⟨1, 1⟩, ⟨1, 2⟩]
def routeB : Route := [⟨2, 1⟩, ⟨2, 2⟩]
def routeC : Route := [⟨3, 1⟩, ⟨3, 2⟩]
def routeD : Route := [⟨4, 1⟩, ⟨4, 2⟩]

/-! ### Claims -/

/-- C3: feeding the milestone detector a jump of the cumulative distance
from 0 to 1.0 miles (session start leaves `nextMilestoneMiles = 0.25`)
emits exactly 4 notifications, one per crossed threshold 0.25, 0.5,
0.75, 1.0, and leaves `nextMilestoneMiles = 1.25`. -/
theorem milestone_one_mile_jump_four_notifications :
    (checkMilestones 1 (1/4)).1 = [1/4, 1/2, 3/4, 1] ∧
    (checkMilestones 1 (1/4)).1.length = 4 ∧
    (checkMilestones 1 (1/4)).2 = 5/4 := by
  norm_num [checkMilestones_step, checkMilestones_stop]

/-- C8: `selectCandidate i` (the route-choice button's
`setSelectedRoute(idx)`) changes only the selection: the route list,
position, distance and loading flag are untouched, the stored index
becomes `i`, candidate `i` renders selected and every other candidate
renders unselected.  No geometry is recomputed. -/
theorem selectCandidate_only_selection (s : AppState) (i : ℕ) :
    (selectCandidate s i).routes = s.routes ∧
    (selectCandidate s i).position = s.position ∧
    (selectCandidate s i).distance = s.distance ∧
    (selectCandidate s i).loading = s.loading ∧
    (selectCandidate s i).selectedRoute = i ∧
    isSelected (selectCandidate s i) i = true ∧
    (∀ j : ℕ, j ≠ i → isSelected (selectCandidate s i) j = false) := by
  refine ⟨rfl, rfl, rfl, rfl, rfl, by simp [selectCandidate, isSelected], ?_⟩
  intro j hj
  simp [selectCandidate, isSelected, hj]

/-- C9: with no position acquired (`position = null`), `generateRoutes`
is a complete no-op in both versions: the guard `if (!position) return;`
fires, no request is issued, and the state (routes, selected index,
loading flag included) is unchanged. -/
theorem generateRoutes_no_position_noop (s : AppState)
    (now1 now2 now3 now4 : ℕ) (o1 o2 o3 o4 p1 p2 p3 p4 : Except Unit Route)
    (h : s.position = none) :
    generateRoutesConc s now1 now2 now3 now4 o1 o2 o3 o4 = (s, []) ∧
    generateRoutesSeq s p1 p2 p3 p4 = (s, []) := by
  constructor
  · simp [generateRoutesConc, h]
  · simp [generateRoutesSeq, h]

/-- Witness for C9 at the initial state (whose `position` is `none`). -/
theorem generateRoutes_no_position_noop_witness :
    generateRoutesConc initialState 0 0 0 0
        (.ok routeA) (.ok routeB) (.ok routeC) (.ok routeD) = (initialState, []) ∧
    generateRoutesSeq initialState
        (.ok routeA) (.ok routeB) (.ok routeC) (.ok routeD) = (initialState, []) :=
  generateRoutes_no_position_noop initialState 0 0 0 0
    (.ok routeA) (.ok routeB) (.ok routeC) (.ok routeD)
    (.ok routeA) (.ok routeB) (.ok routeC) (.ok routeD) rfl

/-- C1 counterexample: in the sequential implementation a 4-request
batch whose third request fails yields the 3 successful candidates —
a partial candidate set is returned and retained, not a single
failure. -/
theorem seq_partial_results_counterexample :
    (generateRoutesSeq sampleState
        (.ok routeA) (.ok routeB) (.error ()) (.ok routeD)).1.routes
      = [routeA, routeB, routeD] ∧
    (generateRoutesSeq sampleState
        (.ok routeA) (.ok routeB) (.error ()) (.ok routeD)).1.routes.length = 3 := by
  exact ⟨rfl, rfl⟩

/-- C1 (amended): in the `Promise.all` implementation, if any of the
four requests fails then the whole batch rejects and no partial
candidate set is stored (the route list is left empty). -/
theorem conc_failure_all_or_nothing (s : AppState) (pos : Coord)
    (now1 now2 now3 now4 : ℕ) (o1 o2 o3 o4 : Except Unit Route)
    (hp : s.position = some pos)
    (hf : Except.error () ∈ [o1, o2, o3, o4]) :
    promiseAll [o1, o2, o3, o4] = .error () ∧
    (generateRoutesConc s now1 now2 now3 now4 o1 o2 o3 o4).1.routes = [] := by
  have he := promiseAll_error_of_mem hf
  refine ⟨he, ?_⟩
  simp [generateRoutesConc, hp, he]

/-- Witness for `conc_failure_all_or_nothing`. -/
theorem conc_failure_all_or_nothing_witness :
    promiseAll [.ok routeA, .ok routeB, .error (), .ok routeD] = .error () ∧
    (generateRoutesConc sampleState 5 6 7 8
        (.ok routeA) (.ok routeB) (.error ()) (.ok routeD)).1.routes = [] :=
  conc_failure_all_or_nothing sampleState nycCoord 5 6 7 8
    (.ok routeA) (.ok routeB) (.error ()) (.ok routeD) rfl (by simp)

/-- C2 counterexample: a 0.5-mile target converts to 804.67 m, below
the claimed 1600 m minimum, yet both implementations issue all four
provider requests (and the `Promise.all` version even succeeds),
instead of returning an error before any network call. -/
theorem half_mile_requests_issued :
    milesToMeters halfMileState.distance < 1600 ∧
    (generateRoutesConc halfMileState 5 6 7 8
        (.ok routeA) (.ok routeB) (.ok routeC) (.ok routeD)).2.length = 4 ∧
    (generateRoutesConc halfMileState 5 6 7 8
        (.ok routeA) (.ok routeB) (.ok routeC) (.ok routeD)).1.routes.length = 4 ∧
    (generateRoutesSeq halfMileState
        (.ok routeA) (.ok routeB) (.ok routeC) (.ok routeD)).2.length = 4 := by
  refine ⟨?_, rfl, rfl, rfl⟩
  norm_num [milesToMeters, halfMileState, sampleState]

/-- C2 (amended): neither implementation checks a minimum target
distance; whenever a position is set, `generateRoutes` issues all four
provider requests regardless of the target distance. -/
theorem generateRoutes_no_min_distance_check (s : AppState) (pos : Coord)
    (now1 now2 now3 now4 : ℕ) (o1 o2 o3 o4 p1 p2 p3 p4 : Except Unit Route)
    (hp : s.position = some pos) :
    (generateRoutesConc s now1 now2 now3 now4 o1 o2 o3 o4).2.length = 4 ∧
    (generateRoutesSeq s p1 p2 p3 p4).2.length = 4 := by
  constructor
  · simp [generateRoutesConc, hp]
  · simp [generateRoutesSeq, hp, seqOffsets]

/-- Witness for `generateRoutes_no_min_distance_check` at the 0.5-mile
state. -/
theorem generateRoutes_no_min_distance_check_witness :
    (generateRoutesConc halfMileState 5 6 7 8
        (.ok routeA) (.ok routeB) (.error ()) (.ok routeD)).2.length = 4 ∧
    (generateRoutesSeq halfMileState
        (.ok routeA) (.ok routeB) (.error ()) (.ok routeD)).2.length = 4 :=
  generateRoutes_no_min_distance_check halfMileState nycCoord 5 6 7 8
    (.ok routeA) (.ok routeB) (.error ()) (.ok routeD)
    (.ok routeA) (.ok routeB) (.error ()) (.ok routeD) rfl

/-- C4 counterexample: with the same per-request outcomes (requests 1,
2, 4 succeed, request 3 fails), the sequential implementation stores a
candidate set of 3 routes while the concurrent implementation's batch
rejects and stores none — the two are not functionally equivalent. -/
theorem seq_conc_divergence :
    (generateRoutesSeq sampleState
        (.ok routeA) (.ok routeB) (.error ()) (.ok routeD)).1.routes ≠
      (generateRoutesConc sampleState 5 6 7 8
          (.ok routeA) (.ok routeB) (.error ()) (.ok routeD)).1.routes ∧
    promiseAll [.ok routeA, .ok routeB, .error (), .ok routeD] = .error () := by
  constructor
  · decide
  · rfl

/-- C4 (amended): the sequential and the concurrent implementation are
functionally equivalent exactly on batches in which every provider
request succeeds: both then store the same four routes and reset the
selection to index 0, and the concurrent batch resolves with all four
results. -/
theorem seq_conc_equivalent_when_all_ok (s : AppState)
    (now1 now2 now3 now4 : ℕ) (r1 r2 r3 r4 : Route) :
    (generateRoutesSeq s (.ok r1) (.ok r2) (.ok r3) (.ok r4)).1.routes =
      (generateRoutesConc s now1 now2 now3 now4
          (.ok r1) (.ok r2) (.ok r3) (.ok r4)).1.routes ∧
    (generateRoutesSeq s (.ok r1) (.ok r2) (.ok r3) (.ok r4)).1.selectedRoute =
      (generateRoutesConc s now1 now2 now3 now4
          (.ok r1) (.ok r2) (.ok r3) (.ok r4)).1.selectedRoute ∧
    promiseAll [.ok r1, .ok r2, .ok r3, .ok r4] = .ok [r1, r2, r3, r4] := by
  obtain ⟨p, routes, sel, dist, load⟩ := s
  cases p <;> exact ⟨rfl, rfl, rfl⟩

/-- C5 counterexample: batch 1 starts, then a newer batch 2 starts;
batch 2's results arrive first and batch 1's late results arrive last.
The stored candidate set ends up being stale batch 1's `[routeA]`, not
the most recent request's `[routeB]` — the late results of the
superseded batch do overwrite the newer request's result set. -/
theorem stale_batch_overwrite :
    (runEvents sampleState
        [GenEvent.start 1, GenEvent.start 2,
         GenEvent.completeOk 2 [routeB], GenEvent.completeOk 1 [routeA]]).routes
      = [routeA] ∧
    ([routeA] : List Route) ≠ [routeB] := by
  constructor
  · rfl
  · decide

/-- C5 (amended): the handlers consult no request-generation counter,
so the final candidate set is simply that of whichever batch's success
continuation runs last, with the selection reset to 0 — regardless of
which request is the most recent. -/
theorem last_completion_wins (s : AppState) (es : List GenEvent)
    (b : ℕ) (loops : List Route) :
    (runEvents s (es ++ [GenEvent.completeOk b loops])).routes = loops ∧
    (runEvents s (es ++ [GenEvent.completeOk b loops])).selectedRoute = 0 := by
  simp [runEvents, List.foldl_append, stepEvent]

/-- C6: a successful `Promise.all` generation (all four provider calls
returning routes) stores exactly the 4 candidates in request order
(indices 0..3) and resets the selection so that the candidate at index
0 — and only that one — renders as selected. -/
theorem conc_success_four_candidates (s : AppState) (pos : Coord)
    (now1 now2 now3 now4 : ℕ) (r1 r2 r3 r4 : Route)
    (hp : s.position = some pos) :
    (generateRoutesConc s now1 now2 now3 now4
        (.ok r1) (.ok r2) (.ok r3) (.ok r4)).1.routes = [r1, r2, r3, r4] ∧
    (generateRoutesConc s now1 now2 now3 now4
        (.ok r1) (.ok r2) (.ok r3) (.ok r4)).1.routes.length = 4 ∧
    (generateRoutesConc s now1 now2 now3 now4
        (.ok r1) (.ok r2) (.ok r3) (.ok r4)).1.selectedRoute = 0 ∧
    isSelected (generateRoutesConc s now1 now2 now3 now4
        (.ok r1) (.ok r2) (.ok r3) (.ok r4)).1 0 = true ∧
    isSelected (generateRoutesConc s now1 now2 now3 now4
        (.ok r1) (.ok r2) (.ok r3) (.ok r4)).1 1 = false ∧
    isSelected (generateRoutesConc s now1 now2 now3 now4
        (.ok r1) (.ok r2) (.ok r3) (.ok r4)).1 2 = false ∧
    isSelected (generateRoutesConc s now1 now2 now3 now4
        (.ok r1) (.ok r2) (.ok r3) (.ok r4)).1 3 = false := by
  simp [generateRoutesConc, hp, promiseAll, isSelected]

/-- Witness for `conc_success_four_candidates`. -/
theorem conc_success_four_candidates_witness :
    (generateRoutesConc sampleState 5 6 7 8
        (.ok routeA) (.ok routeB) (.ok routeC) (.ok routeD)).1.routes
      = [routeA, routeB, routeC, routeD] ∧
    (generateRoutesConc sampleState 5 6 7 8
        (.ok routeA) (.ok routeB) (.ok routeC) (.ok routeD)).1.routes.length = 4 ∧
    (generateRoutesConc sampleState 5 6 7 8
        (.ok routeA) (.ok routeB) (.ok routeC) (.ok routeD)).1.selectedRoute = 0 ∧
    isSelected (generateRoutesConc sampleState 5 6 7 8
        (.ok routeA) (.ok routeB) (.ok routeC) (.ok routeD)).1 0 = true ∧
    isSelected (generateRoutesConc sampleState 5 6 7 8
        (.ok routeA) (.ok routeB) (.ok routeC) (.ok routeD)).1 1 = false ∧
    isSelected (generateRoutesConc sampleState 5 6 7 8
        (.ok routeA) (.ok routeB) (.ok routeC) (.ok routeD)).1 2 = false ∧
    isSelected (generateRoutesConc sampleState 5 6 7 8
        (.ok routeA) (.ok routeB) (.ok routeC) (.ok routeD)).1 3 = false :=
  conc_success_four_candidates sampleState nycCoord 5 6 7 8
    routeA routeB routeC routeD rfl

/-- C7: all four requests of a `Promise.all` batch carry the same
origin and the same target length, and — since the four request bodies
are built in issue order, so their `Date.now()` values are
non-decreasing, while the added seed offsets 1..4 strictly increase —
their `seed` parameters are pairwise distinct. -/
theorem conc_requests_same_origin_distinct_seeds (s : AppState) (pos : Coord)
    (now1 now2 now3 now4 : ℕ) (o1 o2 o3 o4 : Except Unit Route)
    (hp : s.position = some pos)
    (h12 : now1 ≤ now2) (h23 : now2 ≤ now3) (h34 : now3 ≤ now4) :
    ((generateRoutesConc s now1 now2 now3 now4 o1 o2 o3 o4).2.map
        RoundTripRequest.originLat) = [pos.lat, pos.lat, pos.lat, pos.lat] ∧
    ((generateRoutesConc s now1 now2 now3 now4 o1 o2 o3 o4).2.map
        RoundTripRequest.originLng) = [pos.lng, pos.lng, pos.lng, pos.lng] ∧
    ((generateRoutesConc s now1 now2 now3 now4 o1 o2 o3 o4).2.map
        RoundTripRequest.lengthMeters)
      = [milesToMeters s.distance, milesToMeters s.distance,
         milesToMeters s.distance, milesToMeters s.distance] ∧
    List.Pairwise Ne
      ((generateRoutesConc s now1 now2 now3 now4 o1 o2 o3 o4).2.map
        RoundTripRequest.seed) := by
  refine ⟨?_, ?_, ?_, ?_⟩ <;>
    simp [generateRoutesConc, hp, generateRoundTripRequest, List.pairwise_cons]
  omega

/-- Witness for `conc_requests_same_origin_distinct_seeds` (all four
`Date.now()` readings equal, as in the common case). -/
theorem conc_requests_same_origin_distinct_seeds_witness :
    ((generateRoutesConc sampleState 5 5 5 5
        (.ok routeA) (.ok routeB) (.ok routeC) (.ok routeD)).2.map
        RoundTripRequest.originLat)
      = [nycCoord.lat, nycCoord.lat, nycCoord.lat, nycCoord.lat] ∧
    ((generateRoutesConc sampleState 5 5 5 5
        (.ok routeA) (.ok routeB) (.ok routeC) (.ok routeD)).2.map
        RoundTripRequest.originLng)
      = [nycCoord.lng, nycCoord.lng, nycCoord.lng, nycCoord.lng] ∧
    ((generateRoutesConc sampleState 5 5 5 5
        (.ok routeA) (.ok routeB) (.ok routeC) (.ok routeD)).2.map
        RoundTripRequest.lengthMeters)
      = [milesToMeters sampleState.distance, milesToMeters sampleState.distance,
         milesToMeters sampleState.distance, milesToMeters sampleState.distance] ∧
    List.Pairwise Ne
      ((generateRoutesConc sampleState 5 5 5 5
          (.ok routeA) (.ok routeB) (.ok routeC) (.ok routeD)).2.map
        RoundTripRequest.seed) :=
  conc_requests_same_origin_distinct_seeds sampleState nycCoord 5 5 5 5
    (.ok routeA) (.ok routeB) (.ok routeC) (.ok routeD)
    rfl (le_refl 5) (le_refl 5) (le_refl 5)

/-- C10: the `Promise.all` version clears the route list before the
batch and does not restore it on error, so after any failed batch the
stored candidate set is empty (the previously generated set is
discarded), while the selected index keeps its prior value; `loading`
ends up false via `finally`. -/
theorem conc_failure_not_atomic (s : AppState) (pos : Coord)
    (now1 now2 now3 now4 : ℕ) (o1 o2 o3 o4 : Except Unit Route)
    (hp : s.position = some pos)
    (hf : Except.error () ∈ [o1, o2, o3, o4]) :
    (generateRoutesConc s now1 now2 now3 now4 o1 o2 o3 o4).1.routes = [] ∧
    (generateRoutesConc s now1 now2 now3 now4 o1 o2 o3 o4).1.selectedRoute
      = s.selectedRoute ∧
    (generateRoutesConc s now1 now2 now3 now4 o1 o2 o3 o4).1.loading = false := by
  have he := promiseAll_error_of_mem hf
  simp [generateRoutesConc, hp, he]

/-- Witness for `conc_failure_not_atomic`: `sampleState` holds a
previously generated non-empty candidate set with index 1 selected;
after the failed batch the set is empty and the index still 1. -/
theorem conc_failure_not_atomic_witness :
    (generateRoutesConc sampleState 5 6 7 8
        (.ok routeA) (.error ()) (.ok routeC) (.ok routeD)).1.routes = [] ∧
    (generateRoutesConc sampleState 5 6 7 8
        (.ok routeA) (.error ()) (.ok routeC) (.ok routeD)).1.selectedRoute
      = sampleState.selectedRoute ∧
    (generateRoutesConc sampleState 5 6 7 8
        (.ok routeA) (.error ()) (.ok routeC) (.ok routeD)).1.loading = false :=
  conc_failure_not_atomic sampleState nycCoord 5 6 7 8
    (.ok routeA) (.error ()) (.ok routeC) (.ok routeD) rfl (by simp)
